import Mathlib

/-
Verification development for the DRM Video Endpoint driver
(drivers/gpu/drm/xlnx/drm_video_endpoint.c).

The definitions below are a shallow embedding of the driver code.
Machine integers are modelled as follows: C `int` fields (the fields of
struct drm_display_mode) are Lean `Int`; C `u32` variables and the `u32`
fields of struct videomode are Lean `Nat` values obtained by reducing an
`Int` modulo 2 to the 32; C `u64` similarly modulo 2 to the 64.  C integer
division on `int` truncates toward zero, which is `Int.tdiv`.  Register
writes and calls into the external timing-controller (xlnx_stc) and
bridge (xlnx_bridge) collaborators are modelled as events in a trace.
-/

namespace DrmVidEp

/-- Conversion of a C `int` value to a `u32` storage location: reduction
modulo 2 to the 32 (the Lean `%` on `Int` is Euclidean, which matches the
C conversion of a possibly negative `int` to `u32`). -/
def u32ofInt (i : Int) : Nat := (i % 4294967296).toNat

/-- Conversion of a C `int` expression to a `u64` (unsigned long on the
64-bit platforms this driver targets) storage location. -/
def u64ofInt (i : Int) : Nat := (i % 18446744073709551616).toNat

/-- The three drm mode flag bits the driver reads from
adjusted_mode flags: DRM_MODE_FLAG_INTERLACE, DRM_MODE_FLAG_PHSYNC and
DRM_MODE_FLAG_PVSYNC, modelled as booleans. -/
structure ModeFlags where
  interlace : Bool
  phsync : Bool
  pvsync : Bool
deriving DecidableEq

/-- The fields of struct drm_display_mode that the driver reads or
writes.  All are C `int`.  The fields clock through flags are laid out
consecutively in the kernel struct; SDI_TIMING_PARAMS_SIZE = 48 bytes
starting at offsetof(clock) covers exactly the twelve 4-byte fields
clock, hdisplay, hsync_start, hsync_end, htotal, hskew, vdisplay,
vsync_start, vsync_end, vtotal, vscan, flags.  The vrefresh field lies
outside that block. -/
structure DrmDisplayMode where
  clock : Int
  hdisplay : Int
  hsync_start : Int
  hsync_end : Int
  htotal : Int
  hskew : Int
  vdisplay : Int
  vsync_start : Int
  vsync_end : Int
  vtotal : Int
  vscan : Int
  flags : ModeFlags
  vrefresh : Int
deriving DecidableEq

/-- The display_flags bits the driver sets in vm.flags:
DISPLAY_FLAGS_INTERLACED, DISPLAY_FLAGS_HSYNC_LOW, DISPLAY_FLAGS_VSYNC_LOW. -/
structure VmFlags where
  interlaced : Bool
  hsyncLow : Bool
  vsyncLow : Bool
deriving DecidableEq

/-- struct videomode as filled in by drm_vid_ep_encoder_atomic_mode_set.
All size fields are `u32`; pixelclock is unsigned long (u64). -/
structure Videomode where
  hactive : Nat
  hfront_porch : Nat
  hback_porch : Nat
  hsync_len : Nat
  vactive : Nat
  vfront_porch : Nat
  vback_porch : Nat
  vsync_len : Nat
  flags : VmFlags
  pixelclock : Nat
deriving DecidableEq

/-- Result of the blanking-compensation do-while loop
(drm_video_endpoint.c lines 642-655): the final vm.hfront_porch value,
the vtc_blank value computed in the last executed loop body, the list of
vtc_blank values at which the body incremented vm.hfront_porch, and the
number of times the loop body executed. -/
structure BlankResult where
  fp : Nat
  lastVtc : Nat
  incVtcs : List Nat
  iters : Nat
deriving DecidableEq

/-- One terminal execution of the do-while body, reached when the freshly
computed vtc_blank is not below sditx_blank: the body still increments
vm.hfront_porch when vtc_blank differs from sditx_blank, then the
while condition fails and the loop exits. -/
def blankFinal (bp sl s fp : Nat) : BlankResult :=
  let vtc := (fp + bp + sl) * 2
  if vtc = s then ⟨fp, vtc, [], 1⟩ else ⟨fp + 1, vtc, [vtc], 1⟩

/-- Fuel-indexed form of the blanking-compensation do-while loop.  Each
body execution computes vtc_blank = (hfront_porch + hback_porch +
hsync_len) * PIXELS_PER_CLK against the constant sditx_blank `s`,
increments hfront_porch when the two differ, and repeats while
vtc_blank < s.  The fuel only bounds the recursion; seeding it with `s`
(see blankLoop) is enough for the zero-fuel branch to coincide with the
loop exit, because vtc_blank grows by 2 with every repetition, so after
at most s repetitions vtc_blank is at least s. -/
def blankLoopN (bp sl s : Nat) : Nat → Nat → BlankResult
  | 0, fp => blankFinal bp sl s fp
  | n + 1, fp =>
    let vtc := (fp + bp + sl) * 2
    if vtc < s then
      let r := blankLoopN bp sl s n (fp + 1)
      ⟨r.fp, r.lastVtc, vtc :: r.incVtcs, r.iters + 1⟩
    else blankFinal bp sl s fp

/-- The blanking-compensation loop of drm_vid_ep_encoder_atomic_mode_set,
started from the step-1 horizontal values.  Arguments: hback_porch,
hsync_len, sditx_blank, initial hfront_porch. -/
def blankLoop (bp sl s fp : Nat) : BlankResult := blankLoopN bp sl s s fp

/-- sditx_blank as computed inside the loop: the source timing total
horizontal blanking in native pixel units, assigned to a `u32`. -/
def sditxBlank (m : DrmDisplayMode) : Nat :=
  u32ofInt ((m.hsync_start - m.hdisplay) + (m.hsync_end - m.hsync_start) +
            (m.htotal - m.hsync_end))

/-- The timing derivation of drm_vid_ep_encoder_atomic_mode_set (lines
606-657): horizontal fields divided by PIXELS_PER_CLK = 2 (C `int`
division), vertical fields taken directly, the interlaced vertical
back-porch lookup, the flag mapping, the blanking-compensation loop and
the kHz-to-Hz pixel clock conversion.  `vbackInit` is the content the
uninitialized stack field vm.vback_porch happens to hold on entry; it is
the resulting value only on the interlaced branch with vtotal outside
{1125, 625, 525}, where no assignment to vm.vback_porch is executed. -/
def deriveVm (vbackInit : Nat) (m : DrmDisplayMode) : Videomode × BlankResult :=
  let hfp := u32ofInt (Int.tdiv (m.hsync_start - m.hdisplay) 2)
  let hbp := u32ofInt (Int.tdiv (m.htotal - m.hsync_end) 2)
  let hsl := u32ofInt (Int.tdiv (m.hsync_end - m.hsync_start) 2)
  let r := blankLoop hbp hsl (sditxBlank m) hfp
  ({ hactive := u32ofInt (Int.tdiv m.hdisplay 2)
     hfront_porch := r.fp
     hback_porch := hbp
     hsync_len := hsl
     vactive := u32ofInt m.vdisplay
     vfront_porch := u32ofInt (m.vsync_start - m.vdisplay)
     vback_porch :=
       if m.flags.interlace then
         if m.vtotal = 1125 then u32ofInt (562 - m.vsync_end)
         else if m.vtotal = 625 then u32ofInt (312 - m.vsync_end)
         else if m.vtotal = 525 then u32ofInt (262 - m.vsync_end)
         else vbackInit
       else u32ofInt (m.vtotal - m.vsync_end)
     vsync_len := u32ofInt (m.vsync_end - m.vsync_start)
     flags := { interlaced := m.flags.interlace
                hsyncLow := m.flags.phsync
                vsyncLow := m.flags.pvsync }
     pixelclock := u64ofInt (m.clock * 1000) }, r)

/-- The user-configurable property values held in struct drm_vid_ep. -/
structure EpState where
  sdi_mod_prop_val : Nat
  sdi_data_strm_prop_val : Nat
  sdi_420_in_val : Bool
  sdi_420_out_val : Bool
  is_frac_prop_val : Bool
  height_out_prop_val : Nat
  width_out_prop_val : Nat
  in_fmt_prop_val : Nat
  out_fmt_prop_val : Nat
deriving DecidableEq

/-- The table search of drm_vid_ep_encoder_atomic_mode_set lines 586-592:
the first table entry whose hdisplay and vdisplay equal the configured
output width and height (C compares `int` against `u32`, so the `int`
side converts to unsigned) and whose vrefresh equals the adjusted mode
vrefresh. -/
def findSdiMode (table : List DrmDisplayMode) (widthOut heightOut : Nat)
    (vrefresh : Int) : Option DrmDisplayMode :=
  table.find? fun e =>
    u32ofInt e.hdisplay == widthOut && u32ofInt e.vdisplay == heightOut &&
    e.vrefresh == vrefresh

/-- The memcpy of lines 593-597: SDI_TIMING_PARAMS_SIZE = 48 bytes copied
from offsetof(struct drm_display_mode, clock), i.e. the twelve fields
clock through flags are overwritten from the table entry; vrefresh is
outside the copied block and keeps its value. -/
def overwriteTiming (m e : DrmDisplayMode) : DrmDisplayMode :=
  { m with
    clock := e.clock
    hdisplay := e.hdisplay
    hsync_start := e.hsync_start
    hsync_end := e.hsync_end
    htotal := e.htotal
    hskew := e.hskew
    vdisplay := e.vdisplay
    vsync_start := e.vsync_start
    vsync_end := e.vsync_end
    vtotal := e.vtotal
    vscan := e.vscan
    flags := e.flags }

/-- The outcome of one mode-set call: the adjusted display mode after the
optional canonical-table overwrite, the derived videomode, and the
blanking-loop bookkeeping. -/
structure ModeSetResult where
  adjusted : DrmDisplayMode
  vm : Videomode
  blank : BlankResult
deriving DecidableEq

/-- drm_vid_ep_encoder_atomic_mode_set: when a bridge handle is attached,
look for a canonical table match for (width_out, height_out, vrefresh)
and overwrite the timing block of the adjusted mode with the entry found
(lines 585-601); then run the timing derivation on the result. -/
def drm_vid_ep_encoder_atomic_mode_set (bridgeAttached : Bool)
    (table : List DrmDisplayMode) (s : EpState) (vbackInit : Nat)
    (m : DrmDisplayMode) : ModeSetResult :=
  let m2 :=
    if bridgeAttached then
      match findSdiMode table s.width_out_prop_val s.height_out_prop_val
            m.vrefresh with
      | some e => overwriteTiming m e
      | none => m
    else m
  let p := deriveVm vbackInit m2
  ⟨m2, p.1, p.2⟩

/-- Modelled from the spec: a canonical SMPTE 296M 720p50 table entry. -/
def smpte720p50 : DrmDisplayMode :=
  ⟨74250, 1280, 1720, 1760, 1980, 0, 720, 725, 730, 750, 0,
   ⟨false, false, false⟩, 50⟩

/-- Modelled from the spec: a canonical SMPTE 274M 1080p60 table entry. -/
def smpte1080p60 : DrmDisplayMode :=
  ⟨148500, 1920, 2008, 2052, 2200, 0, 1080, 1084, 1089, 1125, 0,
   ⟨false, false, false⟩, 60⟩

/-- Modelled from the spec: the static table xlnx_sdi_modes of known
SDI-standard timings.  The table lives in xlnx_sdi_modes.h, which is not
among the provided sources; the spec describes it only as a static table
of exact canonical timings keyed by (width, height, refresh).  Two
representative broadcast entries stand in for it here. -/
def xlnx_sdi_modes : List DrmDisplayMode := [smpte720p50, smpte1080p60]

/-- Register offsets of the write register file. -/
def WREG_CORE_ENABLE : Nat := 0x00
def WREG_AXI_S_VID_ENABLE : Nat := 0x04
def WREG_IRQ_ENABLE : Nat := 0x08
def WREG_IRQ_CLEAR : Nat := 0x0C
def WREG_IRQ_MASK : Nat := 0x10
def WREG_SDI_BRIDGE_ENABLE : Nat := 0x14
def WREG_SDI_MODE : Nat := 0x18
def WREG_SDI_IS_FRAC : Nat := 0x1C
def WREG_SDI_FORMAT : Nat := 0x20

/-- Register offsets of the read register file. -/
def RREG_IRQ_STATUS : Nat := 0x04

/-- Interrupt condition bits. -/
def AXI_S_VID_LOCKED_INTR : Nat := 1
def AXI_S_VID_OVERFLOW_INTR : Nat := 2
def AXI_S_VID_UNDERFLOW_INTR : Nat := 4

/-- Observable events: reads and writes of the local register file, and
calls into the external timing controller (xlnx_stc) and the external
bridge (xlnx_bridge), which are black boxes declared in headers outside
the provided sources. -/
inductive Ev where
  | rd (offset : Nat)
  | wr (offset : Nat) (val : Nat)
  | stcEnable
  | stcDisable
  | stcFsyncEnable
  | stcFsyncDisable
  | bridgeDisable
deriving DecidableEq

/-- drm_vid_ep_writel as a trace event. -/
def drm_vid_ep_writel (offset val : Nat) : List Ev := [Ev.wr offset val]

/-- drm_vid_ep_enable_sdi_bridge. -/
def drm_vid_ep_enable_sdi_bridge : List Ev :=
  drm_vid_ep_writel WREG_SDI_BRIDGE_ENABLE 0x1

/-- drm_vid_ep_disable_sdi_bridge. -/
def drm_vid_ep_disable_sdi_bridge : List Ev :=
  drm_vid_ep_writel WREG_SDI_BRIDGE_ENABLE 0x0

/-- drm_vid_ep_enable_axi4s. -/
def drm_vid_ep_enable_axi4s : List Ev :=
  drm_vid_ep_writel WREG_AXI_S_VID_ENABLE 0x1

/-- drm_vid_ep_disable_axi4s. -/
def drm_vid_ep_disable_axi4s : List Ev :=
  drm_vid_ep_writel WREG_AXI_S_VID_ENABLE 0x0

/-- drm_vid_ep_set_display_enable. -/
def drm_vid_ep_set_display_enable : List Ev :=
  drm_vid_ep_writel WREG_CORE_ENABLE 0x1

/-- drm_vid_ep_set_display_disable. -/
def drm_vid_ep_set_display_disable : List Ev :=
  drm_vid_ep_writel WREG_IRQ_ENABLE 0x0 ++ drm_vid_ep_writel WREG_CORE_ENABLE 0x0

/-- drm_vid_ep_commit (lines 668-679): core enable, SDI bridge enable,
timing controller enable, frame sync enable, AXI4S stream enable. -/
def drm_vid_ep_commit : List Ev :=
  drm_vid_ep_set_display_enable ++
  drm_vid_ep_enable_sdi_bridge ++
  [Ev.stcEnable] ++
  [Ev.stcFsyncEnable] ++
  drm_vid_ep_enable_axi4s

/-- drm_vid_ep_disable (lines 681-693): external bridge disable when a
bridge is attached, interrupt and core disable, AXI4S stream disable,
SDI bridge disable, frame sync disable, timing controller disable. -/
def drm_vid_ep_disable (bridgeAttached : Bool) : List Ev :=
  (if bridgeAttached then [Ev.bridgeDisable] else []) ++
  drm_vid_ep_set_display_disable ++
  drm_vid_ep_disable_axi4s ++
  drm_vid_ep_disable_sdi_bridge ++
  [Ev.stcFsyncDisable] ++
  [Ev.stcDisable]

/-- Membership in the disable counterparts of the enable set written by
commit: serializer (AXI4S stream), frame sync, timing controller,
SDI bridge. -/
def isEnableSetDisableOp (e : Ev) : Bool :=
  e == Ev.wr WREG_AXI_S_VID_ENABLE 0x0 ||
  e == Ev.stcFsyncDisable ||
  e == Ev.stcDisable ||
  e == Ev.wr WREG_SDI_BRIDGE_ENABLE 0x0

/-- A write to one of the enable registers (core, AXI4S stream,
interrupt enable, SDI bridge). -/
def isEnableDisableWrite (e : Ev) : Bool :=
  match e with
  | Ev.wr o _ =>
    o == WREG_CORE_ENABLE || o == WREG_AXI_S_VID_ENABLE ||
    o == WREG_IRQ_ENABLE || o == WREG_SDI_BRIDGE_ENABLE
  | _ => false

/-- The mask accumulated by drm_vid_ep_irq_handler before the single
write to the interrupt-clear register: each of the three condition bits
present in the status is or-ed in. -/
def irqClearMask (reg : Nat) : Nat :=
  let clr := 0
  let clr := if reg &&& AXI_S_VID_LOCKED_INTR ≠ 0 then
               clr ||| AXI_S_VID_LOCKED_INTR else clr
  let clr := if reg &&& AXI_S_VID_OVERFLOW_INTR ≠ 0 then
               clr ||| AXI_S_VID_OVERFLOW_INTR else clr
  let clr := if reg &&& AXI_S_VID_UNDERFLOW_INTR ≠ 0 then
               clr ||| AXI_S_VID_UNDERFLOW_INTR else clr
  clr

/-- Return type of the interrupt handler. -/
inductive IrqRet where
  | handled
  | none
deriving DecidableEq

/-- drm_vid_ep_irq_handler (lines 193-215), as a function of the status
value the single read of RREG_IRQ_STATUS returns: one status read, one
write of the accumulated mask to the clear register, IRQ_HANDLED. -/
def drm_vid_ep_irq_handler (status : Nat) : List Ev × IrqRet :=
  ([Ev.rd RREG_IRQ_STATUS] ++ drm_vid_ep_writel WREG_IRQ_CLEAR
     (irqClearMask status), IrqRet.handled)

/-- The SDI mode code mapping as the amended specification states it:
HD 0, SD 1, 3G-A 2, 6G 4, 12G 5 map to their own codes; 3G-B (3) has no
switch case and falls to the default, the HD code 0, as does every other
value. -/
def sdiModeCodeSpec (mode : Nat) : Nat :=
  match mode with
  | 0 => 0x0
  | 1 => 0x1
  | 2 => 0x2
  | 4 => 0x4
  | 5 => 0x5
  | _ => 0x0

/-- drm_vid_ep_set_sdi_mode (lines 237-266): the switch over the
requested mode (cases SD, HD, 3GA, 6G, 12G and default, in source
order) followed by the fractional flag write. -/
def drm_vid_ep_set_sdi_mode (mode : Nat) (is_frac : Bool) : List Ev :=
  (match mode with
   | 1 => drm_vid_ep_writel WREG_SDI_MODE 0x1
   | 0 => drm_vid_ep_writel WREG_SDI_MODE 0x0
   | 2 => drm_vid_ep_writel WREG_SDI_MODE 0x2
   | 4 => drm_vid_ep_writel WREG_SDI_MODE 0x4
   | 5 => drm_vid_ep_writel WREG_SDI_MODE 0x5
   | _ => drm_vid_ep_writel WREG_SDI_MODE 0x0) ++
  (if is_frac then drm_vid_ep_writel WREG_SDI_IS_FRAC 0x1
   else drm_vid_ep_writel WREG_SDI_IS_FRAC 0x0)

/-- The nine connector properties the set and get callbacks recognize by
identity comparison of the property handle. -/
inductive PropKey where
  | sdiMode
  | sdiDataStream
  | sdi420In
  | sdi420Out
  | isFrac
  | heightOut
  | widthOut
  | inFmt
  | outFmt
deriving DecidableEq

/-- drm_vid_ep_atomic_set_property (lines 296-324).  The property handle
is modelled as `Option PropKey`: `some k` when the handle is identical to
the stored handle for `k`, `none` when it matches no stored handle.  The
`u64` property value is truncated by the C assignment: cast to
unsigned int for the range properties, conversion to `bool` (nonzero
test) for the boolean properties.  Returns 0 or -EINVAL = -22 together
with the updated state. -/
def drm_vid_ep_atomic_set_property (s : EpState) (prop : Option PropKey)
    (val : Nat) : Int × EpState :=
  match prop with
  | some PropKey.sdiMode => (0, { s with sdi_mod_prop_val := val % 4294967296 })
  | some PropKey.sdiDataStream =>
      (0, { s with sdi_data_strm_prop_val := val % 4294967296 })
  | some PropKey.sdi420In => (0, { s with sdi_420_in_val := val != 0 })
  | some PropKey.sdi420Out => (0, { s with sdi_420_out_val := val != 0 })
  | some PropKey.isFrac => (0, { s with is_frac_prop_val := val != 0 })
  | some PropKey.heightOut =>
      (0, { s with height_out_prop_val := val % 4294967296 })
  | some PropKey.widthOut =>
      (0, { s with width_out_prop_val := val % 4294967296 })
  | some PropKey.inFmt => (0, { s with in_fmt_prop_val := val % 4294967296 })
  | some PropKey.outFmt => (0, { s with out_fmt_prop_val := val % 4294967296 })
  | none => (-22, s)

/-- drm_vid_ep_atomic_get_property (lines 326-355).  Returns the status
and, for a recognized handle, the value stored into the output `u64`
(booleans widen to 0 or 1); an unrecognized handle returns -EINVAL and
leaves the output untouched (`Option.none`). -/
def drm_vid_ep_atomic_get_property (s : EpState) (prop : Option PropKey) :
    Int × Option Nat :=
  match prop with
  | some PropKey.sdiMode => (0, some s.sdi_mod_prop_val)
  | some PropKey.sdiDataStream => (0, some s.sdi_data_strm_prop_val)
  | some PropKey.sdi420In => (0, some (if s.sdi_420_in_val then 1 else 0))
  | some PropKey.sdi420Out => (0, some (if s.sdi_420_out_val then 1 else 0))
  | some PropKey.isFrac => (0, some (if s.is_frac_prop_val then 1 else 0))
  | some PropKey.heightOut => (0, some s.height_out_prop_val)
  | some PropKey.widthOut => (0, some s.width_out_prop_val)
  | some PropKey.inFmt => (0, some s.in_fmt_prop_val)
  | some PropKey.outFmt => (0, some s.out_fmt_prop_val)
  | none => (-22, Option.none)

/-- The width truncation a set-then-get round trip applies to the
submitted `u64` value: modulo 2 to the 32 for the range properties,
booleanization to 0 or 1 for the boolean properties. -/
def truncProp (k : PropKey) (v : Nat) : Nat :=
  match k with
  | PropKey.sdi420In | PropKey.sdi420Out | PropKey.isFrac =>
      if v != 0 then 1 else 0
  | _ => v % 4294967296

/-- A valid non-interlaced 4K timing used in the concrete scenario of the
specification: 3840x2160 with a 594 MHz source clock. -/
def mode4k : DrmDisplayMode :=
  ⟨594000, 3840, 3888, 3920, 4016, 0, 2160, 2168, 2176, 2222, 0,
   ⟨false, false, false⟩, 67⟩

/-- Property state for the concrete 4K scenario: 12G mode, integer frame
rate, 3840x2160 output. -/
def state4k : EpState := ⟨5, 2, false, false, false, 2160, 3840, 0, 0⟩

/-- A valid timing whose total horizontal blanking is odd (htotal raised
from 2200 to 2201), so the integer divisions drop one native pixel and
the compensation loop runs. -/
def modeOddBlank : DrmDisplayMode :=
  ⟨148500, 1920, 2008, 2052, 2201, 0, 1080, 1084, 1089, 1125, 0,
   ⟨false, false, false⟩, 60⟩

/-- A valid timing whose total horizontal blanking is exactly 1. -/
def modeBlankOne : DrmDisplayMode :=
  ⟨25175, 640, 641, 641, 641, 0, 480, 490, 492, 525, 0,
   ⟨false, false, false⟩, 60⟩

/-- A frame-based interlaced 1080i timing: vtotal 1125 with the
full-frame vsync_end value 1094, which exceeds the field constant 562. -/
def mode1080iFrame : DrmDisplayMode :=
  ⟨74250, 1920, 2008, 2052, 2200, 0, 1080, 1084, 1094, 1125, 0,
   ⟨true, false, false⟩, 30⟩

/-- A field-based interlaced 1080i timing with vsync_end below 562. -/
def mode1080iField : DrmDisplayMode :=
  ⟨74250, 1920, 2008, 2052, 2200, 0, 1080, 542, 547, 1125, 0,
   ⟨true, false, false⟩, 30⟩

/-- A field-based interlaced 576i timing (vtotal 625). -/
def mode576i : DrmDisplayMode :=
  ⟨13500, 720, 732, 795, 864, 0, 576, 293, 296, 625, 0,
   ⟨true, false, false⟩, 25⟩

/-- A field-based interlaced 480i timing (vtotal 525). -/
def mode480i : DrmDisplayMode :=
  ⟨13500, 720, 739, 801, 858, 0, 480, 247, 250, 525, 0,
   ⟨true, false, false⟩, 30⟩

/-- An interlaced timing whose vtotal 1000 is none of 1125, 625, 525. -/
def modeOddInterlace : DrmDisplayMode :=
  ⟨74250, 1920, 2008, 2052, 2200, 0, 900, 910, 920, 1000, 0,
   ⟨true, false, false⟩, 30⟩

/-- A 4K input downscaled to a 1080p output: the canonical table carries
a 1920x1080 entry at the same refresh rate, so the table search hits. -/
def modeDownscale : DrmDisplayMode :=
  ⟨594000, 3840, 3888, 3920, 4016, 0, 2160, 2168, 2176, 2222, 0,
   ⟨false, false, false⟩, 60⟩

/-- Property state requesting a 1920x1080 output. -/
def stateDownscale : EpState := ⟨2, 2, false, false, false, 1080, 1920, 0, 0⟩

end DrmVidEp

namespace DrmVidEp

theorem u32ofInt_eq_self (i : Int) (h0 : 0 ≤ i) (h1 : i < 4294967296) :
    (u32ofInt i : Int) = i := by
  unfold u32ofInt
  rw [Int.emod_eq_of_lt h0 h1]
  exact Int.toNat_of_nonneg h0

theorem blankFinal_lastVtc (bp sl s fp : Nat) :
    (blankFinal bp sl s fp).lastVtc = (fp + bp + sl) * 2 := by
  simp only [blankFinal]
  split <;> rfl

theorem blankFinal_recompute (bp sl s fp : Nat) :
    (blankFinal bp sl s fp).lastVtc ≤
      ((blankFinal bp sl s fp).fp + bp + sl) * 2 := by
  simp only [blankFinal]
  split <;> simp

theorem blankFinal_iters (bp sl s fp : Nat) :
    (blankFinal bp sl s fp).iters = 1 := by
  simp only [blankFinal]
  split <;> rfl

theorem blankFinal_incVtcs (bp sl s fp : Nat) :
    ∀ v ∈ (blankFinal bp sl s fp).incVtcs, v ≠ s := by
  simp only [blankFinal]
  split
  · simp
  · next h =>
    intro v hv
    simp at hv
    omega

theorem blankLoopN_lastVtc_ge (bp sl s : Nat) :
    ∀ n fp, s ≤ (fp + bp + sl) * 2 + 2 * n →
      s ≤ (blankLoopN bp sl s n fp).lastVtc := by
  intro n
  induction n with
  | zero =>
    intro fp h
    rw [blankLoopN, blankFinal_lastVtc]
    omega
  | succ n ih =>
    intro fp h
    rw [blankLoopN]
    split
    · next hlt =>
      simpa using ih (fp + 1) (by omega)
    · next hge =>
      rw [blankFinal_lastVtc]
      omega

theorem blankLoopN_recompute (bp sl s : Nat) :
    ∀ n fp, (blankLoopN bp sl s n fp).lastVtc ≤
      ((blankLoopN bp sl s n fp).fp + bp + sl) * 2 := by
  intro n
  induction n with
  | zero =>
    intro fp
    rw [blankLoopN]
    exact blankFinal_recompute bp sl s fp
  | succ n ih =>
    intro fp
    rw [blankLoopN]
    split
    · simpa using ih (fp + 1)
    · exact blankFinal_recompute bp sl s fp

theorem blankLoopN_iters_le (bp sl s : Nat) :
    ∀ n fp, s ≤ (fp + bp + sl) * 2 + 2 * n →
      (blankLoopN bp sl s n fp).iters ≤
        (s - (fp + bp + sl) * 2 + 1) / 2 + 1 := by
  intro n
  induction n with
  | zero =>
    intro fp h
    rw [blankLoopN, blankFinal_iters]
    omega
  | succ n ih =>
    intro fp h
    rw [blankLoopN]
    split
    · next hlt =>
      have hrec := ih (fp + 1) (by omega)
      simp only []
      omega
    · rw [blankFinal_iters]
      omega

theorem blankLoopN_incVtcs_ne (bp sl s : Nat) :
    ∀ n fp, ∀ v ∈ (blankLoopN bp sl s n fp).incVtcs, v ≠ s := by
  intro n
  induction n with
  | zero =>
    intro fp
    rw [blankLoopN]
    exact blankFinal_incVtcs bp sl s fp
  | succ n ih =>
    intro fp v hv
    rw [blankLoopN] at hv
    revert hv
    split
    · next hlt =>
      intro hv
      simp only [List.mem_cons] at hv
      rcases hv with rfl | hv
      · omega
      · exact ih (fp + 1) v hv
    · exact fun hv => blankFinal_incVtcs bp sl s fp v hv

theorem blankLoop_lastVtc_ge (bp sl s fp : Nat) :
    s ≤ (blankLoop bp sl s fp).lastVtc :=
  blankLoopN_lastVtc_ge bp sl s s fp (by omega)

theorem blankLoop_recompute (bp sl s fp : Nat) :
    (blankLoop bp sl s fp).lastVtc ≤ ((blankLoop bp sl s fp).fp + bp + sl) * 2 :=
  blankLoopN_recompute bp sl s s fp

theorem blankLoop_iters_le (bp sl s fp : Nat) :
    (blankLoop bp sl s fp).iters ≤ (s + 1) / 2 + 1 := by
  rw [blankLoop]
  have h := blankLoopN_iters_le bp sl s s fp (by omega)
  have h2 : (s - (fp + bp + sl) * 2 + 1) / 2 ≤ (s + 1) / 2 := by omega
  omega

theorem blankLoop_incVtcs_ne (bp sl s fp : Nat) :
    ∀ v ∈ (blankLoop bp sl s fp).incVtcs, v ≠ s :=
  blankLoopN_incVtcs_ne bp sl s s fp

/-- C1 (counterexample): on the valid timing modeOddBlank, whose total
horizontal blanking is 281, the loop body increments the front porch at
vtc_blank = 282 as well, because the increment is guarded by
vtc_blank differing from sditx_blank, not by being below it; so the
claim that increments happen only while the derived blanking is
strictly below the source blanking is false, even though the final
derived blanking does not undershoot. -/
theorem c1_counterexample :
    ¬(sditxBlank modeOddBlank ≤
        ((deriveVm 0 modeOddBlank).1.hfront_porch +
         (deriveVm 0 modeOddBlank).1.hback_porch +
         (deriveVm 0 modeOddBlank).1.hsync_len) * 2
      ∧ ∀ v ∈ (deriveVm 0 modeOddBlank).2.incVtcs,
          v < sditxBlank modeOddBlank) := by
  decide

/-- C1 (amended): for every display timing with valid horizontal values
(hdisplay ≤ hsync_start ≤ hsync_end ≤ htotal within the int range), the
total horizontal blanking of the derived record, recomputed in native
pixel units, is at least the source timing total horizontal blanking;
and the front porch is incremented exactly at the loop body executions
whose vtc_blank differs from sditx_blank, which can include one final
increment with vtc_blank above sditx_blank. -/
theorem c1_blanking_compensation (vb : Nat) (m : DrmDisplayMode)
    (_h0 : 0 ≤ m.hdisplay) (_h1 : m.hdisplay ≤ m.hsync_start)
    (_h2 : m.hsync_start ≤ m.hsync_end) (_h3 : m.hsync_end ≤ m.htotal)
    (_h4 : m.htotal ≤ 2147483647) :
    sditxBlank m ≤
      ((deriveVm vb m).1.hfront_porch + (deriveVm vb m).1.hback_porch +
       (deriveVm vb m).1.hsync_len) * 2
  ∧ ∀ v ∈ (deriveVm vb m).2.incVtcs, v ≠ sditxBlank m := by
  constructor
  · simp only [deriveVm]
    exact le_trans (blankLoop_lastVtc_ge _ _ _ _) (blankLoop_recompute _ _ _ _)
  · simp only [deriveVm]
    exact blankLoop_incVtcs_ne _ _ _ _

/-- C1 (witness): the amended statement at the concrete valid timing
modeOddBlank. -/
theorem c1_blanking_compensation_witness :
    sditxBlank modeOddBlank ≤
      ((deriveVm 0 modeOddBlank).1.hfront_porch +
       (deriveVm 0 modeOddBlank).1.hback_porch +
       (deriveVm 0 modeOddBlank).1.hsync_len) * 2
  ∧ ∀ v ∈ (deriveVm 0 modeOddBlank).2.incVtcs, v ≠ sditxBlank modeOddBlank :=
  c1_blanking_compensation 0 modeOddBlank (by decide) (by decide) (by decide)
    (by decide) (by decide)

/-- C2 (counterexample): on the valid timing modeBlankOne, whose total
horizontal blanking sditx_blank is 1, the do-while body executes twice,
which exceeds ceil(1 / 2) = 1; the claimed iteration bound
ceil(sditx_blank / pixels-per-clock) is off by one for the do-while
form of the loop. -/
theorem c2_counterexample :
    ¬(sditxBlank modeBlankOne ≤ (deriveVm 0 modeBlankOne).2.lastVtc
      ∧ (deriveVm 0 modeBlankOne).2.iters ≤
          (sditxBlank modeBlankOne + 1) / 2) := by
  decide

/-- C2 (amended): for every display timing with valid horizontal values,
the blanking-compensation loop terminates with vtc_blank at least
sditx_blank, and its body executes at most
ceil(sditx_blank / pixels-per-clock) + 1 times: every body execution
except the last repeats only after incrementing the front porch, which
raises the next vtc_blank by exactly pixels-per-clock = 2 while
sditx_blank stays fixed. -/
theorem c2_loop_termination (vb : Nat) (m : DrmDisplayMode)
    (_h0 : 0 ≤ m.hdisplay) (_h1 : m.hdisplay ≤ m.hsync_start)
    (_h2 : m.hsync_start ≤ m.hsync_end) (_h3 : m.hsync_end ≤ m.htotal)
    (_h4 : m.htotal ≤ 2147483647) :
    sditxBlank m ≤ (deriveVm vb m).2.lastVtc
  ∧ (deriveVm vb m).2.iters ≤ (sditxBlank m + 1) / 2 + 1 := by
  constructor
  · simp only [deriveVm]
    exact blankLoop_lastVtc_ge _ _ _ _
  · simp only [deriveVm]
    exact blankLoop_iters_le _ _ _ _

/-- C2 (witness): the amended statement at the concrete valid timing
modeBlankOne. -/
theorem c2_loop_termination_witness :
    sditxBlank modeBlankOne ≤ (deriveVm 0 modeBlankOne).2.lastVtc
  ∧ (deriveVm 0 modeBlankOne).2.iters ≤ (sditxBlank modeBlankOne + 1) / 2 + 1 :=
  c2_loop_termination 0 modeBlankOne (by decide) (by decide) (by decide)
    (by decide) (by decide)

/-- C3 (counterexample): requesting mode 3 (3G-B) writes the HD code 0
to the mode-select register, not the code 3 the claim states: the switch
in drm_vid_ep_set_sdi_mode has no 3G-B case, so the value falls through
to the default. -/
theorem c3_counterexample :
    drm_vid_ep_set_sdi_mode 3 false =
      [Ev.wr WREG_SDI_MODE 0x0, Ev.wr WREG_SDI_IS_FRAC 0x0]
  ∧ drm_vid_ep_set_sdi_mode 3 false ≠
      [Ev.wr WREG_SDI_MODE 0x3, Ev.wr WREG_SDI_IS_FRAC 0x0] := by
  decide

/-- C3 (amended): the mode-code resolution is a pure total function:
HD (0) maps to 0, SD (1) to 1, 3G-A (2) to 2, 6G (4) to 4, 12G (5) to 5,
while 3G-B (3) and every other value map to the HD code 0; the
fractional flag independently maps to 1 when set and 0 when clear.  The
source switch always emits exactly the mode write followed by the
fractional-flag write. -/
theorem c3_sdi_mode_mapping :
    ∀ (mode : Nat) (is_frac : Bool),
      drm_vid_ep_set_sdi_mode mode is_frac =
        [Ev.wr WREG_SDI_MODE (sdiModeCodeSpec mode),
         Ev.wr WREG_SDI_IS_FRAC (if is_frac then 1 else 0)] := by
  intro mode is_frac
  match mode with
  | 0 => cases is_frac <;> rfl
  | 1 => cases is_frac <;> rfl
  | 2 => cases is_frac <;> rfl
  | 3 => cases is_frac <;> rfl
  | 4 => cases is_frac <;> rfl
  | 5 => cases is_frac <;> rfl
  | n + 6 => cases is_frac <;> rfl

/-- C4 (counterexample): commit does write the enable sequence the claim
states, but disable does not emit the disable operations of that enable
set in the exact reverse order [serializer, frame-sync,
timing-generator, bridge]: the SDI bridge is disabled right after the
serializer, before the frame-sync and timing-generator disables. -/
theorem c4_counterexample :
    ¬(drm_vid_ep_commit =
        [Ev.wr WREG_CORE_ENABLE 0x1, Ev.wr WREG_SDI_BRIDGE_ENABLE 0x1,
         Ev.stcEnable, Ev.stcFsyncEnable, Ev.wr WREG_AXI_S_VID_ENABLE 0x1]
      ∧ (drm_vid_ep_disable true).filter isEnableSetDisableOp =
        [Ev.wr WREG_AXI_S_VID_ENABLE 0x0, Ev.stcFsyncDisable, Ev.stcDisable,
         Ev.wr WREG_SDI_BRIDGE_ENABLE 0x0]) := by
  decide

/-- C4 (amended): commit performs its enable operations in exactly the
order [core-enable, bridge-enable, timing-generator-enable,
frame-sync-enable, serializer-enable]; disable, whether or not an
external bridge is attached, performs the disable operations of that
enable set in the order [serializer, bridge, frame-sync,
timing-generator], which is not the exact reverse of the enable order. -/
theorem c4_commit_disable_order :
    drm_vid_ep_commit =
      [Ev.wr WREG_CORE_ENABLE 0x1, Ev.wr WREG_SDI_BRIDGE_ENABLE 0x1,
       Ev.stcEnable, Ev.stcFsyncEnable, Ev.wr WREG_AXI_S_VID_ENABLE 0x1]
  ∧ ∀ b : Bool, (drm_vid_ep_disable b).filter isEnableSetDisableOp =
      [Ev.wr WREG_AXI_S_VID_ENABLE 0x0, Ev.wr WREG_SDI_BRIDGE_ENABLE 0x0,
       Ev.stcFsyncDisable, Ev.stcDisable] := by
  decide

/-- C5 (counterexample): on the frame-based interlaced 1080i timing
mode1080iFrame (vtotal 1125, vsync_end 1094), the computed value
562 - vsync_end is negative and the u32 field vm.vback_porch stores it
reduced modulo 2 to the 32, so the derived back porch does not equal
562 - vsync_end as an integer. -/
theorem c5_counterexample :
    mode1080iFrame.flags.interlace = true ∧ mode1080iFrame.vtotal = 1125
  ∧ ¬(((deriveVm 0 mode1080iFrame).1.vback_porch : Int) =
        562 - mode1080iFrame.vsync_end) := by
  decide

/-- C5 (amended): the derived vertical back porch equals
vtotal - vsync_end for non-interlaced timings, and 562 - vsync_end,
312 - vsync_end, 262 - vsync_end for interlaced timings with vtotal
1125, 625, 525 respectively, provided the difference is non-negative
and fits a u32 (for vsync_end above the constant, the u32 field holds
the difference reduced modulo 2 to the 32). -/
theorem c5_vertical_back_porch (vb : Nat) (m : DrmDisplayMode) :
    (m.flags.interlace = false → m.vsync_end ≤ m.vtotal →
      m.vtotal - m.vsync_end < 4294967296 →
      ((deriveVm vb m).1.vback_porch : Int) = m.vtotal - m.vsync_end)
  ∧ (m.flags.interlace = true → m.vtotal = 1125 → 0 ≤ m.vsync_end →
      m.vsync_end ≤ 562 →
      ((deriveVm vb m).1.vback_porch : Int) = 562 - m.vsync_end)
  ∧ (m.flags.interlace = true → m.vtotal = 625 → 0 ≤ m.vsync_end →
      m.vsync_end ≤ 312 →
      ((deriveVm vb m).1.vback_porch : Int) = 312 - m.vsync_end)
  ∧ (m.flags.interlace = true → m.vtotal = 525 → 0 ≤ m.vsync_end →
      m.vsync_end ≤ 262 →
      ((deriveVm vb m).1.vback_porch : Int) = 262 - m.vsync_end) := by
  refine ⟨?_, ?_, ?_, ?_⟩
  · intro hi hle hlt
    simp only [deriveVm, hi, Bool.false_eq_true, if_false]
    exact u32ofInt_eq_self _ (by omega) (by omega)
  · intro hi hv hge hle
    simp only [deriveVm, hi, if_true, hv, if_pos rfl]
    exact u32ofInt_eq_self _ (by omega) (by omega)
  · intro hi hv hge hle
    simp only [deriveVm, hi, if_true, hv]
    norm_num
    exact u32ofInt_eq_self _ (by omega) (by omega)
  · intro hi hv hge hle
    simp only [deriveVm, hi, if_true, hv]
    norm_num
    exact u32ofInt_eq_self _ (by omega) (by omega)

/-- C5 (witness): the amended statement at a concrete non-interlaced 4K
timing and at concrete field-based interlaced 1080i, 576i and 480i
timings. -/
theorem c5_vertical_back_porch_witness :
    ((deriveVm 0 mode4k).1.vback_porch : Int) = mode4k.vtotal - mode4k.vsync_end
  ∧ ((deriveVm 0 mode1080iField).1.vback_porch : Int) =
      562 - mode1080iField.vsync_end
  ∧ ((deriveVm 0 mode576i).1.vback_porch : Int) = 312 - mode576i.vsync_end
  ∧ ((deriveVm 0 mode480i).1.vback_porch : Int) = 262 - mode480i.vsync_end :=
  ⟨(c5_vertical_back_porch 0 mode4k).1 (by decide) (by decide) (by decide),
   (c5_vertical_back_porch 0 mode1080iField).2.1 (by decide) (by decide)
     (by decide) (by decide),
   (c5_vertical_back_porch 0 mode576i).2.2.1 (by decide) (by decide)
     (by decide) (by decide),
   (c5_vertical_back_porch 0 mode480i).2.2.2 (by decide) (by decide)
     (by decide) (by decide)⟩

/-- C6 (counterexample): with a bridge attached, an exact canonical-table
match for the requested 1920x1080 output at the adjusted mode refresh
rate exists, yet the overwrite does not leave the active geometry
unchanged: the 48-byte copy starting at the clock field also covers
hdisplay and vdisplay, so the 3840x2160 source geometry becomes the
1920x1080 geometry of the table entry. -/
theorem c6_counterexample :
    (findSdiMode xlnx_sdi_modes stateDownscale.width_out_prop_val
      stateDownscale.height_out_prop_val modeDownscale.vrefresh).isSome = true
  ∧ ¬((drm_vid_ep_encoder_atomic_mode_set true xlnx_sdi_modes stateDownscale 0
        modeDownscale).adjusted.hdisplay = modeDownscale.hdisplay
      ∧ (drm_vid_ep_encoder_atomic_mode_set true xlnx_sdi_modes stateDownscale 0
          modeDownscale).adjusted.vdisplay = modeDownscale.vdisplay) := by
  decide

/-- C6 (amended): when a bridge is attached and the table search for
(output width, output height, refresh rate) finds an entry, the
mode-set path overwrites the whole timing block from clock through
flags, including the active width and height, with the table entry
values before the derivation runs; the refresh-rate field, outside the
copied block, keeps its value, and with no bridge attached the adjusted
mode is left untouched. -/
theorem c6_table_overwrite (table : List DrmDisplayMode) (st : EpState)
    (vb : Nat) (m e : DrmDisplayMode)
    (hfind : findSdiMode table st.width_out_prop_val st.height_out_prop_val
      m.vrefresh = some e) :
    (drm_vid_ep_encoder_atomic_mode_set true table st vb m).adjusted =
      overwriteTiming m e
  ∧ (drm_vid_ep_encoder_atomic_mode_set true table st vb m).adjusted.vrefresh =
      m.vrefresh
  ∧ (drm_vid_ep_encoder_atomic_mode_set true table st vb m).adjusted.hdisplay =
      e.hdisplay
  ∧ (drm_vid_ep_encoder_atomic_mode_set true table st vb m).adjusted.vdisplay =
      e.vdisplay
  ∧ (drm_vid_ep_encoder_atomic_mode_set true table st vb m).vm =
      (deriveVm vb (overwriteTiming m e)).1
  ∧ (drm_vid_ep_encoder_atomic_mode_set false table st vb m).adjusted = m := by
  refine ⟨?_, ?_, ?_, ?_, ?_, ?_⟩ <;>
    simp [drm_vid_ep_encoder_atomic_mode_set, hfind, overwriteTiming]

/-- C6 (witness): the amended statement at the concrete downscale
scenario, whose table search finds the canonical 1080p60 entry. -/
theorem c6_table_overwrite_witness :
    (drm_vid_ep_encoder_atomic_mode_set true xlnx_sdi_modes stateDownscale 0
      modeDownscale).adjusted = overwriteTiming modeDownscale smpte1080p60
  ∧ (drm_vid_ep_encoder_atomic_mode_set true xlnx_sdi_modes stateDownscale 0
      modeDownscale).adjusted.vrefresh = modeDownscale.vrefresh
  ∧ (drm_vid_ep_encoder_atomic_mode_set true xlnx_sdi_modes stateDownscale 0
      modeDownscale).adjusted.hdisplay = smpte1080p60.hdisplay
  ∧ (drm_vid_ep_encoder_atomic_mode_set true xlnx_sdi_modes stateDownscale 0
      modeDownscale).adjusted.vdisplay = smpte1080p60.vdisplay
  ∧ (drm_vid_ep_encoder_atomic_mode_set true xlnx_sdi_modes stateDownscale 0
      modeDownscale).vm = (deriveVm 0 (overwriteTiming modeDownscale
        smpte1080p60)).1
  ∧ (drm_vid_ep_encoder_atomic_mode_set false xlnx_sdi_modes stateDownscale 0
      modeDownscale).adjusted = modeDownscale :=
  c6_table_overwrite xlnx_sdi_modes stateDownscale 0 modeDownscale smpte1080p60
    (by decide)

theorem irqClearMask_eq (n : Nat) :
    irqClearMask n =
      (if n.testBit 0 then 1 else 0) + (if n.testBit 1 then 2 else 0) +
      (if n.testBit 2 then 4 else 0) := by
  have h0 := Nat.and_two_pow n 0
  have h1 := Nat.and_two_pow n 1
  have h2 := Nat.and_two_pow n 2
  simp only [irqClearMask, AXI_S_VID_LOCKED_INTR, AXI_S_VID_OVERFLOW_INTR,
    AXI_S_VID_UNDERFLOW_INTR]
  cases hb0 : n.testBit 0 <;> cases hb1 : n.testBit 1 <;> cases hb2 : n.testBit 2 <;>
    rw [hb0] at h0 <;> rw [hb1] at h1 <;> rw [hb2] at h2 <;>
    norm_num at h0 h1 h2 <;>
    simp [Nat.and_one_is_mod, h0, h1, h2]

/-- C7: for every interrupt-status value, one handler invocation is
exactly one read of the status register followed by exactly one write to
the interrupt-clear register carrying the accumulated mask of the
condition bits present in the status (sum of the latched bits 0, 1, 2),
with zero writes to any enable register, always returning IRQ_HANDLED;
in particular status 0b110 produces the single clear write 0b110. -/
theorem c7_irq_handler (status : Nat) :
    drm_vid_ep_irq_handler status =
      ([Ev.rd RREG_IRQ_STATUS, Ev.wr WREG_IRQ_CLEAR (irqClearMask status)],
       IrqRet.handled)
  ∧ irqClearMask status =
      (if status.testBit 0 then 1 else 0) + (if status.testBit 1 then 2 else 0) +
      (if status.testBit 2 then 4 else 0)
  ∧ (drm_vid_ep_irq_handler status).1.countP isEnableDisableWrite = 0
  ∧ (drm_vid_ep_irq_handler status).1.countP (fun e => e == Ev.rd RREG_IRQ_STATUS) = 1
  ∧ irqClearMask 6 = 6 := by
  refine ⟨rfl, irqClearMask_eq status, rfl, rfl, by decide⟩

/-- C8: the concrete 4K scenario: 12G mode, 3840x2160 at source clock
594000 kHz with no canonical-table hit; the derivation yields horizontal
active 1920, pixel clock 594000000 Hz, mode register code 5, vertical
back porch 46, and a final derived blanking at least sditx_blank with
zero front-porch increments. -/
theorem c8_concrete_scenario :
    (drm_vid_ep_encoder_atomic_mode_set true xlnx_sdi_modes state4k 0
      mode4k).vm.hactive = 1920
  ∧ (drm_vid_ep_encoder_atomic_mode_set true xlnx_sdi_modes state4k 0
      mode4k).vm.pixelclock = 594000000
  ∧ drm_vid_ep_set_sdi_mode state4k.sdi_mod_prop_val state4k.is_frac_prop_val =
      [Ev.wr WREG_SDI_MODE 0x5, Ev.wr WREG_SDI_IS_FRAC 0x0]
  ∧ (drm_vid_ep_encoder_atomic_mode_set true xlnx_sdi_modes state4k 0
      mode4k).vm.vback_porch = 46
  ∧ sditxBlank (drm_vid_ep_encoder_atomic_mode_set true xlnx_sdi_modes state4k 0
      mode4k).adjusted ≤
    (drm_vid_ep_encoder_atomic_mode_set true xlnx_sdi_modes state4k 0
      mode4k).blank.lastVtc
  ∧ (drm_vid_ep_encoder_atomic_mode_set true xlnx_sdi_modes state4k 0
      mode4k).blank.incVtcs = [] := by
  decide

/-- C9 (counterexample): on the interlaced timing modeOddInterlace with
vtotal 1000, no branch assigns vm.vback_porch, so the derived back porch
is whatever the uninitialized stack field held on entry: two executions
of the derivation on the same display timing, differing only in that
prior stack content, give different back-porch values, refuting the
claim that the back porch is determined by the inputs. -/
theorem c9_counterexample :
    (deriveVm 0 modeOddInterlace).1.vback_porch = 0
  ∧ (deriveVm 1 modeOddInterlace).1.vback_porch = 1
  ∧ (deriveVm 0 modeOddInterlace).1.vback_porch ≠
      (deriveVm 1 modeOddInterlace).1.vback_porch := by
  decide

/-- C9 (amended): for every interlaced timing whose vtotal is none of
1125, 625, 525, the derivation completes (it is a total function, so it
cannot crash) and the derived vertical back porch equals exactly the
value the uninitialized field held before the derivation: it is
deterministic in the display timing together with that prior content,
but not in the display timing alone. -/
theorem c9_interlaced_fallthrough (vb : Nat) (m : DrmDisplayMode)
    (hi : m.flags.interlace = true) (h1 : m.vtotal ≠ 1125)
    (h2 : m.vtotal ≠ 625) (h3 : m.vtotal ≠ 525) :
    (deriveVm vb m).1.vback_porch = vb := by
  simp [deriveVm, hi, h1, h2, h3]

/-- C9 (witness): the amended statement at the concrete interlaced
timing modeOddInterlace with prior field content 7. -/
theorem c9_interlaced_fallthrough_witness :
    (deriveVm 7 modeOddInterlace).1.vback_porch = 7 :=
  c9_interlaced_fallthrough 7 modeOddInterlace (by decide) (by decide)
    (by decide) (by decide)

/-- C10: setting a recognized property to a value and then getting it
returns 0 from both calls, and the value read back is the submitted
value truncated to the stored width: modulo 2 to the 32 for the range
properties, booleanized to 0 or 1 for the boolean properties; a property
handle matching none of the stored handles makes both calls return
-EINVAL, the set leaves the state unchanged and the get leaves the
output untouched. -/
theorem c10_property_roundtrip (s : EpState) (k : PropKey) (v : Nat) :
    (drm_vid_ep_atomic_set_property s (some k) v).1 = 0
  ∧ drm_vid_ep_atomic_get_property
      (drm_vid_ep_atomic_set_property s (some k) v).2 (some k) =
      (0, some (truncProp k v))
  ∧ drm_vid_ep_atomic_set_property s Option.none v = (-22, s)
  ∧ drm_vid_ep_atomic_get_property s Option.none = (-22, Option.none) := by
  cases k <;>
    simp [drm_vid_ep_atomic_set_property, drm_vid_ep_atomic_get_property,
      truncProp]

end DrmVidEp
